import Mathlib

/-!
Verification of the flowMC experiment driver (src/MCMC/experiment.py).

The driver orchestrates a sampling experiment: it versions an output
directory, resolves a target log-density from a symbolic name, translates
the command-line hyperparameters into the arguments of the sampler bundle,
runs the external sampler, and computes convergence diagnostics (arviz
rank-normalized R-hat, both over the full chains and over a sequence of
growing draw windows) together with several plots.

The embedding below translates the pure/decidable content of that file:
numeric hyperparameters become `Int`/`ℚ`, float arrays become lists of `ℝ`,
filesystem side effects become explicit values (the list of directories a
call creates), and a Python `raise` becomes `Except.error`.

The numeric kernel of `az.rhat` (rank-normalization, split variances) lives
in the external `arviz` library; the claims under study depend only on
which draws are handed to it and on its validity gate (arviz returns NaN,
with a warning, whenever an array has fewer than 2 chains or fewer than 4
draws).  The kernel is therefore a parameter `core` of the embedding, while
the validity gate and all data selection are modelled concretely; NaN is
modelled as `Option.none`.
-/

namespace MCMCExperiment

/-- Source line 30: the list of supported experiment names. -/
def SUPPORTED_EXPERIMENTS : List String := ["gaussian", "dualmoon", "rosenbrock"]

/-- The three target densities the runner can dispatch to (the three
branches of the `if`/`elif` chain at source lines 167-175). -/
inductive Target where
  | gaussian
  | dualmoon
  | rosenbrock
deriving DecidableEq, Repr

/-- The argparse parameter record (source lines 33-136), with the documented
default values.  `argparse` floats are modelled as `ℚ`, ints as `Int`. -/
structure Params where
  experiment_type : String
  n_dims : Int
  outdir : String
  n_local_steps : Int := 20
  n_global_steps : Int := 50
  n_training_loops : Int := 20
  mala_step_size : ℚ := 1/10
  n_production_loops : Int := 20
  n_epochs : Int := 5
  n_chains : Int := 20
  rq_spline_hidden_units : Int := 32
  rq_spline_n_bins : Int := 8
  rq_spline_n_layers : Int := 4
  learning_rate : ℚ := 1/1000
  batch_size : Int := 10000
  n_max_examples : Int := 10000
  show_initial_positions : Bool := false
deriving DecidableEq, Repr

/-- The arguments `run_experiment` hands to `RQSpline_MALA_Bundle`
(source lines 221-239), minus the two non-data arguments (the PRNG subkey
and the target callable, which are passed positionally and modelled in
`prepareRun` below). -/
structure BundleArgs where
  n_chains : Int
  n_dim : Int
  n_local_steps : Int
  n_global_steps : Int
  n_training_loops : Int
  n_production_loops : Int
  n_epochs : Int
  mala_step_size : ℚ
  rq_spline_hidden_units : List Int
  rq_spline_n_bins : Int
  rq_spline_n_layers : Int
  learning_rate : ℚ
  batch_size : Int
  n_max_examples : Int
  verbose : Bool
deriving DecidableEq, Repr

/-- Embedding of the keyword/positional arguments built at source lines
221-239.  Note the source passes `self.params["n_epochs"]` as the
`mala_step_size` keyword. -/
def bundleArgs (p : Params) : BundleArgs :=
  { n_chains := p.n_chains
    n_dim := p.n_dims
    n_local_steps := p.n_local_steps
    n_global_steps := p.n_global_steps
    n_training_loops := p.n_training_loops
    n_production_loops := p.n_production_loops
    n_epochs := p.n_epochs
    mala_step_size := (p.n_epochs : ℚ)
    rq_spline_hidden_units := [p.rq_spline_hidden_units, p.rq_spline_hidden_units]
    rq_spline_n_bins := p.rq_spline_n_bins
    rq_spline_n_layers := p.rq_spline_n_layers
    learning_rate := p.learning_rate
    batch_size := p.batch_size
    n_max_examples := p.n_max_examples
    verbose := false }

/-- Embedding of the target-registry logic of `__init__` (source lines
157-175): the membership check that raises `ValueError`, followed by the
`if`/`elif` dispatch on the experiment name.  Under the membership guard
the final `elif` can only be reached by `"rosenbrock"`. -/
def resolveTarget (name : String) : Except String Target :=
  if !(SUPPORTED_EXPERIMENTS.contains name) then
    Except.error ("Experiment type " ++ name ++ " is not supported.")
  else if name = "gaussian" then Except.ok Target.gaussian
  else if name = "dualmoon" then Except.ok Target.dualmoon
  else Except.ok Target.rosenbrock

/-- Value of a list of decimal digit characters, as Python's `int` reads the
regex capture group. -/
def digitsVal (s : List Char) : Nat :=
  s.foldl (fun acc c => 10 * acc + (c.toNat - 48)) 0

/-- Embedding of `re.match(rf"{prefix}_(\d+)", name)` followed by
`int(m.group(1))` (source lines 182-183): the name must begin with
`<pfx>_` followed by at least one digit; the captured value is the maximal
leading digit run after the underscore.  (`re.match` anchors only at the
start of the string.) -/
def matchNum (pfx name : String) : Option Nat :=
  let pre := (pfx ++ "_").data
  if pre.isPrefixOf name.data then
    let ds := (name.data.drop pre.length).takeWhile Char.isDigit
    if ds = [] then none else some (digitsVal ds)
  else none

/-- Embedding of `get_next_available_outdir` (source lines 177-185).
Filesystem state is explicit: `baseExists` says whether `base_dir` exists,
`subdirNames` are the names of its immediate subdirectories.  The result is
the returned path together with the list of directories the call created
(the base directory via `os.makedirs`, and nothing else; when the base was
just created, `os.listdir` sees no entries). -/
def get_next_available_outdir (baseExists : Bool) (subdirNames : List String)
    (base_dir pfx : String) : String × List String :=
  let created := if baseExists then [] else [base_dir]
  let existing := if baseExists then subdirNames else []
  let numbers := existing.filterMap (matchNum pfx)
  let next := numbers.foldl Nat.max 0 + 1
  (base_dir ++ ("/" ++ (pfx ++ "_" ++ Nat.repr next)), created)

/-- The state `__init__` leaves behind on success: the resolved unique
output directory, every directory the construction created (the base if it
was missing, then the unique directory itself via `os.makedirs` at source
line 154), and the resolved target. -/
structure RunnerState where
  outdir : String
  created : List String
  target : Target
deriving DecidableEq, Repr

/-- Embedding of `FlowMCExperimentRunner.__init__` (source lines 146-175):
resolve the versioned output directory, create it, then validate the
experiment type and bind the target function.  No other field of `args` is
validated. -/
def initExperiment (baseExists : Bool) (subdirNames : List String) (p : Params) :
    Except String RunnerState :=
  let pr := get_next_available_outdir baseExists subdirNames p.outdir "results"
  match resolveTarget p.experiment_type with
  | Except.ok t => Except.ok { outdir := pr.1, created := pr.2 ++ [pr.1], target := t }
  | Except.error e => Except.error e

/-! ### Target densities (source lines 187-199)

`jnp` float arrays become `List ℝ`; out-of-range indexing is modelled with
`getD` (the claims only exercise in-range indices). -/

/-- Sum of squares of the entries, `jnp.sum(x**2)`. -/
noncomputable def sumSq (x : List ℝ) : ℝ := (x.map (fun t => t ^ 2)).sum

/-- `jnp.linalg.norm x`, the Euclidean norm. -/
noncomputable def normE (x : List ℝ) : ℝ := Real.sqrt (sumSq x)

/-- `logsumexp` of a two-entry array. -/
noncomputable def logsumexp2 (a b : ℝ) : ℝ := Real.log (Real.exp a + Real.exp b)

/-- `target_normal` (source line 190): `-0.5 * jnp.sum(x**2)`. -/
noncomputable def target_normal (x : List ℝ) : ℝ := -(1/2) * sumSq x

/-- `target_dual_moon` (source lines 192-196).  `term2` and `term3` are the
two-entry arrays `-0.5*((x[i] + [-3.0, 3.0])/s)**2` for `i = 0, 1` with
scales `0.8` and `0.6`; the result is `-(term1 - logsumexp(term2)
- logsumexp(term3))`. -/
noncomputable def target_dual_moon (x : List ℝ) : ℝ :=
  let term1 := (1/2) * ((normE x - 2) / (1/10)) ^ 2
  let lse2 := logsumexp2 (-(1/2) * ((x.getD 0 0 + (-3)) / (8/10)) ^ 2)
                         (-(1/2) * ((x.getD 0 0 + 3) / (8/10)) ^ 2)
  let lse3 := logsumexp2 (-(1/2) * ((x.getD 1 0 + (-3)) / (6/10)) ^ 2)
                         (-(1/2) * ((x.getD 1 0 + 3) / (6/10)) ^ 2)
  Neg.neg (term1 - lse2 - lse3)

/-- `target_rosenbrock` (source lines 198-199):
`-jnp.sum(100.0 * (x[1:] - x[:-1]**2)**2 + (1 - x[:-1])**2)`. -/
noncomputable def target_rosenbrock (x : List ℝ) : ℝ :=
  -(List.zipWith (fun x1 x0 => 100 * (x1 - x0 ^ 2) ^ 2 + (1 - x0) ^ 2)
      (x.drop 1) x).sum

/-- The callable each `Target` tag dispatches to (source lines 167-175). -/
noncomputable def targetFn : Target → (List ℝ → ℝ)
  | Target.gaussian => target_normal
  | Target.dualmoon => target_dual_moon
  | Target.rosenbrock => target_rosenbrock

/-! ### R-hat diagnostics (source lines 257-302 and 382-419)

A `(chain, draw)` array is a `List (List ℝ)`; the full `positions` array
`(chain, draw, dim)` is a `List (List (List ℝ))`. -/

/-- Number of draws of a `(chain, draw)` array, `ary.shape[-1]`. -/
def nDraws2 (ary : List (List ℝ)) : Nat := (ary.headD []).length

/-- `az.rhat(ary, method="rank")` on a `(chain, draw)` array, with the
numeric kernel abstracted as `core`.  Modelled from the arviz library (the
external collaborator the source delegates to): `_rhat_rank` first runs the
shape validation `_not_valid(ary, shape_kwargs=dict(min_draws=4,
min_chains=2))` and returns NaN — modelled as `none` — when the array has
fewer than 2 chains or fewer than 4 draws; otherwise it computes the
rank-normalized split R-hat of the array, abstracted here as `core ary`. -/
def azRhat (core : List (List ℝ) → ℝ) (ary : List (List ℝ)) : Option ℝ :=
  if 2 ≤ ary.length ∧ 4 ≤ nDraws2 ary then some (core ary) else none

/-- `chains.shape[1]` of the positions array (the number of draws). -/
def posDraws (positions : List (List (List ℝ))) : Nat :=
  (positions.headD []).length

/-- `chains.shape[2]` of the positions array (the number of dimensions). -/
def posDims (positions : List (List (List ℝ))) : Nat :=
  ((positions.headD []).headD []).length

/-- `chains[:, :, j]`: the `(chain, draw)` array of dimension `j`. -/
def dimSlice (positions : List (List (List ℝ))) (j : Nat) : List (List ℝ) :=
  positions.map (fun chain => chain.map (fun draw => draw.getD j 0))

/-- `chains[:, :k, j]`: the first `k` draws of dimension `j`. -/
def dimWindowSlice (positions : List (List (List ℝ))) (k j : Nat) :
    List (List ℝ) :=
  positions.map (fun chain => (chain.take k).map (fun draw => draw.getD j 0))

/-- Embedding of `compute_rhat` (source lines 257-302): `az.rhat` on the
full positions array with `method="rank"` (the default), one value per
dimension of the array.  The function contains no `raise` and no
`try`/`except`; its only other actions are printing and writing the PDF
table, which are out of scope here, so it always returns `Except.ok`. -/
def compute_rhat (core : List (List ℝ) → ℝ) (positions : List (List (List ℝ))) :
    Except String (List (Option ℝ)) :=
  Except.ok ((List.range (posDims positions)).map
    (fun j => azRhat core (dimSlice positions j)))

/-- The hardcoded window count of `plot_rhat_diagnostics` (source line 392). -/
def n_step_group : Nat := 7

/-- Embedding of the growing-window R-hat matrix of `plot_rhat_diagnostics`
(source lines 393-404): `n_group_step = n_steps // n_step_group`, and entry
`(j, i)` is `az.rhat(chains[:, :(i + 1) * n_group_step, j], method="rank")`.
The resulting matrix `rhat_s` has one row per dimension (`self.params`'s
`n_dims`) and `n_step_group` columns. -/
def plot_rhat_trace (core : List (List ℝ) → ℝ) (positions : List (List (List ℝ)))
    (n_dims : Nat) : List (List (Option ℝ)) :=
  (List.range n_dims).map (fun j =>
    (List.range n_step_group).map (fun i =>
      azRhat core
        (dimWindowSlice positions ((i + 1) * (posDraws positions / n_step_group)) j)))

/-! ### The artifact pipeline of `main` (source lines 423-435)

`main` calls the postprocessing methods strictly in sequence with no
`try`/`except`; each method writes the named PDF artifacts below (in
order).  A write failure is a Python exception, which propagates out of
`main` and aborts every later call; the files written before the failure
stay on disk. -/

/-- The artifact files of one run, in the order `main` produces them. -/
def artifactOrder : List String :=
  ["acceptance_and_logprob.pdf", "chains_corner_plot.pdf",
   "flow_samples_corner_plot.pdf", "training_loss_curve.pdf",
   "rhat_diagnostics.pdf", "rhat_table.pdf"]

/-- Sequential artifact production with exception propagation: `failing` is
the set of artifacts whose write raises.  The result is the list of files
actually written and whether the run completed. -/
def runSteps (failing : List String) : List String → List String × Bool
  | [] => ([], true)
  | a :: rest =>
    if failing.contains a then ([], false)
    else
      let r := runSteps failing rest
      (a :: r.1, r.2)

/-- The artifacts written by `main`'s postprocessing sequence when the
writes in `failing` raise. -/
def mainArtifacts (failing : List String) : List String × Bool :=
  runSteps failing artifactOrder

/-! ### Run preparation (source lines 201-254 and 336-338)

The jax PRNG primitives are deterministic functions of their arguments;
they appear as parameters `prngKey`, `splitKey`, `normalMat` of the
embedding.  `run_experiment` reads no ambient entropy, which the embedding
records by threading an environment argument `env` that the body never
consults. -/

/-- Everything `run_experiment` passes to the external sampler machinery:
`rng_key, subkey = jax.random.split(jax.random.PRNGKey(42))`; the bundle
gets `subkey` and `bundleArgs`; the `Sampler` gets `dim`, `n_chains` and
`rng_key`; `sampler.sample` gets the initial ensemble
`jax.random.normal(subkey, shape=(n_chains, dim))` and the empty `data`
mapping. -/
structure SamplerInvocation (κ α : Type) where
  dim : Int
  n_chains : Int
  sampler_key : κ
  bundle_key : κ
  bundle : BundleArgs
  initial_position : α
  data_arg : List (String × ℝ)

/-- Embedding of the sampler-input preparation of `run_experiment`
(source lines 201-251). -/
def prepareRun {κ α ε : Type} (prngKey : Nat → κ) (splitKey : κ → κ × κ)
    (normalMat : κ → Int → Int → α) (_env : ε) (p : Params) :
    SamplerInvocation κ α :=
  let rng_key := prngKey 42
  let pair := splitKey rng_key
  { dim := p.n_dims
    n_chains := p.n_chains
    sampler_key := pair.1
    bundle_key := pair.2
    bundle := bundleArgs p
    initial_position := normalMat pair.2 p.n_chains p.n_dims
    data_arg := [] }

/-- The arguments of the flow-model sample call in `plot_corner` (source
line 338): `self.sampler.resources["model"].sample(jax.random.PRNGKey(2046),
10_000)`. -/
def flowSampleCall {κ : Type} (prngKey : Nat → κ) : κ × Nat :=
  (prngKey 2046, 10000)

/-- A concrete 2-chain, 7-draw, 1-dimensional ensemble (all entries 0). -/
noncomputable def witnessPositions7 : List (List (List ℝ)) :=
  List.replicate 2 (List.replicate 7 [0])

/-- A concrete 2-chain, 3-draw, 2-dimensional ensemble (all entries 0). -/
noncomputable def witnessPositions3 : List (List (List ℝ)) :=
  List.replicate 2 (List.replicate 3 [0, 0])

/-! ### Theorems -/

/-- Helper: indexing with a default into a function mapped over `range`. -/
theorem getD_map_range {β : Type} (n : Nat) (f : Nat → β) (j : Nat) (d : β)
    (h : j < n) : ((List.range n).map f).getD j d = f j := by
  rw [List.getD_eq_getElem?_getD, List.getElem?_map, List.getElem?_range h]
  rfl

/-- C3, divergence witness: the claim that the MALA step size handed to the
sampler bundle equals the user's `--mala-step-size` parameter (default 1e-1)
fails on the code: `run_experiment` passes `self.params["n_epochs"]` as the
`mala_step_size` keyword, so for every parameter set the bundle receives the
epoch count, and at the documented defaults it receives 5 instead of 1/10. -/
theorem c3_mala_step_size_bug :
    (∀ p : Params, (bundleArgs p).mala_step_size = (p.n_epochs : ℚ))
    ∧ (bundleArgs { experiment_type := "gaussian", n_dims := 2, outdir := "out" }).mala_step_size = 5
    ∧ ({ experiment_type := "gaussian", n_dims := 2, outdir := "out" } : Params).mala_step_size = 1/10
    ∧ (bundleArgs { experiment_type := "gaussian", n_dims := 2, outdir := "out" }).mala_step_size
      ≠ ({ experiment_type := "gaussian", n_dims := 2, outdir := "out" } : Params).mala_step_size := by
  refine ⟨fun p => rfl, by norm_num [bundleArgs], rfl, by norm_num [bundleArgs]⟩

/-- C4 counterexample: constructing the runner with a supported experiment
kind and dimensionality 0 (< 1) succeeds — `__init__` never validates
`n_dims`, so the claim that construction fails whenever dimensionality < 1
is false. -/
theorem c4_counterexample :
    initExperiment true [] { experiment_type := "gaussian", n_dims := 0, outdir := "out" }
      = Except.ok { outdir := "out/results_1", created := ["out/results_1"],
                    target := Target.gaussian } := by
  rfl

/-- Helper: the registry dispatch succeeds exactly on the supported names. -/
theorem resolveTarget_ok_iff (name : String) :
    (∃ t, resolveTarget name = Except.ok t) ↔ name ∈ SUPPORTED_EXPERIMENTS := by
  constructor
  · rintro ⟨t, ht⟩
    by_contra hmem
    simp [resolveTarget, hmem] at ht
  · intro hmem
    fin_cases hmem <;> exact ⟨_, rfl⟩

/-- Helper: construction succeeds exactly when the registry dispatch does. -/
theorem initExperiment_ok_iff (baseExists : Bool) (subdirNames : List String) (p : Params) :
    (∃ s, initExperiment baseExists subdirNames p = Except.ok s)
      ↔ (∃ t, resolveTarget p.experiment_type = Except.ok t) := by
  unfold initExperiment
  cases h : resolveTarget p.experiment_type with
  | ok t => simp [h]
  | error e => simp [h]

/-- C4 amended: construction fails (with `ValueError`) exactly when the
experiment kind is outside the supported set; dimensionality is never
validated — changing `n_dims` arbitrarily leaves the construction result
unchanged. -/
theorem c4_validation_amended (baseExists : Bool) (subdirNames : List String) (p : Params) :
    ((∃ s, initExperiment baseExists subdirNames p = Except.ok s)
      ↔ p.experiment_type ∈ SUPPORTED_EXPERIMENTS)
    ∧ (∀ d : Int, initExperiment baseExists subdirNames { p with n_dims := d }
        = initExperiment baseExists subdirNames p) := by
  refine ⟨(initExperiment_ok_iff baseExists subdirNames p).trans
    (resolveTarget_ok_iff p.experiment_type), fun d => rfl⟩

/-- C5 counterexample: the registry's symbolic name for the bimodal target
is `"dualmoon"`, not `"dual-moon"`: resolving `"dual-moon"` fails, while
`"dualmoon"` — a string outside the claim's enumeration — succeeds, so the
claim's enumeration {gaussian, dual-moon, rosenbrock} is wrong on both
sides. -/
theorem c5_counterexample :
    resolveTarget "dual-moon" = Except.error "Experiment type dual-moon is not supported."
    ∧ resolveTarget "dualmoon" = Except.ok Target.dualmoon := by
  exact ⟨rfl, rfl⟩

/-- C5 amended: for each name in {gaussian, dualmoon, rosenbrock} resolution
returns a target whose callable is the corresponding log-density, and for
every string outside that enumeration it fails (the code raises
`ValueError`). -/
theorem c5_registry_amended (name : String) :
    ((∃ t, resolveTarget name = Except.ok t) ↔ name ∈ SUPPORTED_EXPERIMENTS)
    ∧ resolveTarget "gaussian" = Except.ok Target.gaussian
    ∧ resolveTarget "dualmoon" = Except.ok Target.dualmoon
    ∧ resolveTarget "rosenbrock" = Except.ok Target.rosenbrock
    ∧ targetFn Target.gaussian = target_normal
    ∧ targetFn Target.dualmoon = target_dual_moon
    ∧ targetFn Target.rosenbrock = target_rosenbrock := by
  exact ⟨resolveTarget_ok_iff name, rfl, rfl, rfl, rfl, rfl, rfl⟩

/-- C6: the directory versioner returns `<base>/<prefix>_<max+1>` over the
subdirectories matching `<prefix>_<integer>`: on a base holding `results_1`
and `results_3` (with or without non-matching neighbours) it returns
`.../results_4`; on an empty base it returns `.../results_1` creating
nothing; on a missing base it creates only the base and returns
`.../results_1`; and the returned versioned path is never among the
directories the call creates. -/
theorem c6_next_available_dir (base : String) :
    (get_next_available_outdir true ["results_1", "results_3"] base "results").1
        = base ++ "/results_4"
    ∧ (get_next_available_outdir true ["results_1", "results_3", "junk", "other_2"] base "results").1
        = base ++ "/results_4"
    ∧ get_next_available_outdir true [] base "results" = (base ++ "/results_1", [])
    ∧ (∀ subdirNames, get_next_available_outdir false subdirNames base "results"
        = (base ++ "/results_1", [base]))
    ∧ (∀ baseExists subdirNames pfx,
        (get_next_available_outdir baseExists subdirNames base pfx).1
          ∉ (get_next_available_outdir baseExists subdirNames base pfx).2) := by
  refine ⟨?_, ?_, ?_, ?_, ?_⟩
  · simp only [get_next_available_outdir]
    congr 1
  · simp only [get_next_available_outdir]
    congr 1
  · simp only [get_next_available_outdir, Prod.mk.injEq]
    exact ⟨by congr 1, rfl⟩
  · intro subdirNames
    rw [show get_next_available_outdir false subdirNames base "results"
        = get_next_available_outdir false [] base "results" from rfl]
    simp only [get_next_available_outdir, Prod.mk.injEq]
    exact ⟨by congr 1, rfl⟩
  · intro baseExists subdirNames pfx
    cases baseExists with
    | true => simp [get_next_available_outdir]
    | false =>
      intro h
      simp only [get_next_available_outdir] at h
      simp only [Bool.false_eq_true, if_false, List.mem_singleton] at h
      have hlen := congrArg String.length h
      rw [String.length_append, String.length_append] at hlen
      have hone : String.length ("/" : String) = 1 := rfl
      omega

/-- C9 counterexample: with only the chains corner plot failing, the run
stops there — the earlier acceptance/log-prob artifact exists, but the later
training-loss artifact is never produced, contradicting the claim that the
run continues to the remaining artifacts. -/
theorem c9_counterexample :
    mainArtifacts ["chains_corner_plot.pdf"] = (["acceptance_and_logprob.pdf"], false)
    ∧ "acceptance_and_logprob.pdf" ∈ (mainArtifacts ["chains_corner_plot.pdf"]).1
    ∧ "training_loss_curve.pdf" ∉ (mainArtifacts ["chains_corner_plot.pdf"]).1 := by
  refine ⟨rfl, ?_, ?_⟩ <;> decide

/-- C9 amended: a rendering failure aborts the run at that artifact: the
artifacts produced are exactly the maximal failure-free leading segment of
the pipeline (prior completed artifacts are unaffected, nothing at or after
the first failing artifact is produced), and the run completes iff no
artifact write fails. -/
theorem c9_artifact_failure_amended (failing : List String) :
    mainArtifacts failing
      = (artifactOrder.takeWhile (fun a => !(failing.contains a)),
         artifactOrder.all (fun a => !(failing.contains a)))
    ∧ ((mainArtifacts failing).2 = true ↔ ∀ a ∈ artifactOrder, failing.contains a = false) := by
  have key : ∀ l : List String, runSteps failing l
      = (l.takeWhile (fun a => !(failing.contains a)),
         l.all (fun a => !(failing.contains a))) := by
    intro l
    induction l with
    | nil => rfl
    | cons a rest ih =>
      by_cases hmem : a ∈ failing
      · simp [runSteps, hmem]
      · simp [runSteps, hmem, ih]
  refine ⟨key artifactOrder, ?_⟩
  rw [show mainArtifacts failing = _ from key artifactOrder]
  simp [List.all_eq_true]

/-- C10: the run is deterministic modulo the external sampler: the
preparation of the sampler invocation ignores the ambient environment (two
invocations with the same parameters produce identical sampler inputs), the
sampler and bundle keys derive from the constant seed 42, the initial chain
ensemble is the normal draw under the split of that key at the configured
shape, and the flow-model sample call always uses seed 2046 with count
10000. -/
theorem c10_determinism {κ α ε : Type} (prngKey : Nat → κ) (splitKey : κ → κ × κ)
    (normalMat : κ → Int → Int → α) (env1 env2 : ε) (p : Params) :
    prepareRun prngKey splitKey normalMat env1 p = prepareRun prngKey splitKey normalMat env2 p
    ∧ (prepareRun prngKey splitKey normalMat env1 p).sampler_key = (splitKey (prngKey 42)).1
    ∧ (prepareRun prngKey splitKey normalMat env1 p).bundle_key = (splitKey (prngKey 42)).2
    ∧ (prepareRun prngKey splitKey normalMat env1 p).initial_position
        = normalMat (splitKey (prngKey 42)).2 p.n_chains p.n_dims
    ∧ flowSampleCall prngKey = (prngKey 2046, 10000) := by
  exact ⟨rfl, rfl, rfl, rfl, rfl⟩

/-- C1 counterexample: the claim that the last window of the growing-window
trace equals the full-data R-hat fails when the window count (7) does not
divide the draw count: on a 2-chain, 4-draw, 1-dimension ensemble the last
window covers `7 * (4 / 7) = 0` draws and its value is NaN (`none`), while
the full-data R-hat on the same ensemble is a number. -/
theorem c1_counterexample :
    Except.ok ((plot_rhat_trace (fun _ => (0 : ℝ)) [[[(0 : ℝ)], [0], [0], [0]], [[0], [0], [0], [0]]] 1).map
        (fun row => row.getD (n_step_group - 1) none))
      ≠ compute_rhat (fun _ => (0 : ℝ)) [[[(0 : ℝ)], [0], [0], [0]], [[0], [0], [0], [0]]] := by
  have h1 : (plot_rhat_trace (fun _ => (0 : ℝ)) [[[(0 : ℝ)], [0], [0], [0]], [[0], [0], [0], [0]]] 1).map
      (fun row => row.getD (n_step_group - 1) none) = [none] := rfl
  have h2 : compute_rhat (fun _ => (0 : ℝ)) [[[(0 : ℝ)], [0], [0], [0]], [[0], [0], [0], [0]]]
      = Except.ok [some 0] := rfl
  rw [h1, h2]
  simp

/-- C1 amended: for every ensemble the growing-window trace is a
`(n_dims, 7)` matrix whose window `w = i + 1` is the R-hat of the first
`(i + 1) * (total_draws / 7)` draws of that dimension; and whenever the
ensemble is rectangular, its dimension count matches the configured
`n_dims`, and the window count 7 divides the number of draws, the last
window equals the full-data `compute_rhat` value exactly (for 7 ∤ draws the
last window uses only the first `7 * (draws / 7)` draws, as the
counterexample shows). -/
theorem c1_rhat_trace_amended (core : List (List ℝ) → ℝ)
    (positions : List (List (List ℝ))) (n_dims : Nat) :
    (plot_rhat_trace core positions n_dims).length = n_dims
    ∧ (∀ row ∈ plot_rhat_trace core positions n_dims, row.length = n_step_group)
    ∧ (∀ i j : Nat, j < n_dims → i < n_step_group →
        ((plot_rhat_trace core positions n_dims).getD j []).getD i none
          = azRhat core (dimWindowSlice positions
              ((i + 1) * (posDraws positions / n_step_group)) j))
    ∧ ((∀ c ∈ positions, c.length = posDraws positions) →
        n_dims = posDims positions →
        n_step_group ∣ posDraws positions →
        compute_rhat core positions
          = Except.ok ((plot_rhat_trace core positions n_dims).map
              (fun row => row.getD (n_step_group - 1) none))) := by
  refine ⟨by simp [plot_rhat_trace], ?_, ?_, ?_⟩
  · intro row hrow
    simp only [plot_rhat_trace, List.mem_map] at hrow
    obtain ⟨j, hj, rfl⟩ := hrow
    simp
  · intro i j hj hi
    simp only [plot_rhat_trace]
    rw [getD_map_range n_dims _ j [] hj, getD_map_range n_step_group _ i none hi]
  · intro hrect hdims hdiv
    have hwindow : ∀ j, dimWindowSlice positions (posDraws positions) j
        = dimSlice positions j := by
      intro j
      unfold dimWindowSlice dimSlice
      apply List.map_congr_left
      intro c hc
      rw [← hrect c hc, List.take_length]
    unfold compute_rhat plot_rhat_trace
    congr 1
    rw [List.map_map, hdims]
    symm
    apply List.map_congr_left
    intro j hj
    simp only [Function.comp_apply]
    rw [getD_map_range n_step_group _ (n_step_group - 1) none (by decide)]
    have h7 : (n_step_group - 1 + 1) * (posDraws positions / n_step_group)
        = posDraws positions := by
      have : n_step_group - 1 + 1 = n_step_group := rfl
      rw [this, Nat.mul_div_cancel' hdiv]
    rw [h7, hwindow j]

/-- C1 witness: the amended theorem instantiated on a concrete 2-chain,
7-draw, 1-dimensional ensemble (7 divides the draw count), with the
last-window hypotheses discharged there. -/
theorem c1_rhat_trace_witness :
    ((∀ c ∈ witnessPositions7, c.length = posDraws witnessPositions7)
      ∧ 1 = posDims witnessPositions7
      ∧ n_step_group ∣ posDraws witnessPositions7)
    ∧ ((plot_rhat_trace (fun _ => (0 : ℝ)) witnessPositions7 1).length = 1
      ∧ (∀ row ∈ plot_rhat_trace (fun _ => (0 : ℝ)) witnessPositions7 1,
          row.length = n_step_group)
      ∧ (∀ i j : Nat, j < 1 → i < n_step_group →
          ((plot_rhat_trace (fun _ => (0 : ℝ)) witnessPositions7 1).getD j []).getD i none
            = azRhat (fun _ => (0 : ℝ)) (dimWindowSlice witnessPositions7
                ((i + 1) * (posDraws witnessPositions7 / n_step_group)) j))
      ∧ compute_rhat (fun _ => (0 : ℝ)) witnessPositions7
          = Except.ok ((plot_rhat_trace (fun _ => (0 : ℝ)) witnessPositions7 1).map
              (fun row => row.getD (n_step_group - 1) none))) :=
  ⟨⟨by decide, by decide, ⟨1, rfl⟩⟩,
    ⟨(c1_rhat_trace_amended (fun _ => (0 : ℝ)) witnessPositions7 1).1,
      (c1_rhat_trace_amended (fun _ => (0 : ℝ)) witnessPositions7 1).2.1,
      (c1_rhat_trace_amended (fun _ => (0 : ℝ)) witnessPositions7 1).2.2.1,
      (c1_rhat_trace_amended (fun _ => (0 : ℝ)) witnessPositions7 1).2.2.2
        (by decide) (by decide) ⟨1, rfl⟩⟩⟩

/-- C2 counterexample: on a 1-chain ensemble (chain-axis length 1 < 2) the
full-data computation returns `Except.ok` with a NaN entry and the windowed
trace returns a NaN-filled matrix — neither fails, and no
`InsufficientDataError` mechanism exists in the code. -/
theorem c2_counterexample :
    compute_rhat (fun _ => (0 : ℝ)) [[[(0 : ℝ)], [0], [0], [0], [0]]]
      = Except.ok [none]
    ∧ plot_rhat_trace (fun _ => (0 : ℝ)) [[[(0 : ℝ)], [0], [0], [0], [0]]] 1
      = [List.replicate n_step_group none] := ⟨rfl, rfl⟩

/-- C2 amended: with fewer than 2 chains every R-hat value produced — by the
full-data computation and by every window of the trace — is NaN (`none`);
both computations return normally instead of raising. -/
theorem c2_insufficient_chains_amended (core : List (List ℝ) → ℝ)
    (positions : List (List (List ℝ))) (n_dims : Nat)
    (h : positions.length < 2) :
    compute_rhat core positions = Except.ok (List.replicate (posDims positions) none)
    ∧ plot_rhat_trace core positions n_dims
        = List.replicate n_dims (List.replicate n_step_group none) := by
  have hslice : ∀ j, azRhat core (dimSlice positions j) = none := by
    intro j
    unfold azRhat
    rw [if_neg]
    rintro ⟨h2, -⟩
    rw [dimSlice, List.length_map] at h2
    omega
  have hwin : ∀ k j, azRhat core (dimWindowSlice positions k j) = none := by
    intro k j
    unfold azRhat
    rw [if_neg]
    rintro ⟨h2, -⟩
    rw [dimWindowSlice, List.length_map] at h2
    omega
  constructor
  · unfold compute_rhat
    congr 1
    refine List.eq_replicate_iff.mpr ⟨by simp, ?_⟩
    intro b hb
    simp only [List.mem_map] at hb
    obtain ⟨j, hj, rfl⟩ := hb
    exact hslice j
  · refine List.eq_replicate_iff.mpr ⟨by simp [plot_rhat_trace], ?_⟩
    intro row hrow
    simp only [plot_rhat_trace, List.mem_map] at hrow
    obtain ⟨j, hj, rfl⟩ := hrow
    refine List.eq_replicate_iff.mpr ⟨by simp, ?_⟩
    intro b hb
    simp only [List.mem_map] at hb
    obtain ⟨i, hi, rfl⟩ := hb
    exact hwin _ j

/-- C2 witness: the amended theorem instantiated on a concrete 1-chain,
4-draw, 1-dimensional ensemble. -/
theorem c2_insufficient_chains_witness :
    (([[[(0 : ℝ)], [0], [0], [0]]] : List (List (List ℝ))).length < 2)
    ∧ (compute_rhat (fun _ => (0 : ℝ)) [[[(0 : ℝ)], [0], [0], [0]]]
        = Except.ok (List.replicate (posDims [[[(0 : ℝ)], [0], [0], [0]]]) none)
      ∧ plot_rhat_trace (fun _ => (0 : ℝ)) [[[(0 : ℝ)], [0], [0], [0]]] 1
        = List.replicate 1 (List.replicate n_step_group none)) :=
  ⟨by decide,
    c2_insufficient_chains_amended (fun _ => (0 : ℝ)) [[[(0 : ℝ)], [0], [0], [0]]] 1 (by decide)⟩

/-- C7: when the total number of draws is smaller than the window count 7,
the growing-window computation still terminates normally and returns a
well-shaped `(n_dims, 7)` matrix — every window then covers 0 draws, so
every entry is NaN (`none`). -/
theorem c7_degenerate_trace (core : List (List ℝ) → ℝ)
    (positions : List (List (List ℝ))) (n_dims : Nat)
    (h : posDraws positions < n_step_group) :
    (plot_rhat_trace core positions n_dims).length = n_dims
    ∧ (∀ row ∈ plot_rhat_trace core positions n_dims, row.length = n_step_group)
    ∧ plot_rhat_trace core positions n_dims
        = List.replicate n_dims (List.replicate n_step_group none) := by
  have hg : posDraws positions / n_step_group = 0 := Nat.div_eq_of_lt h
  have hwin : ∀ j, azRhat core (dimWindowSlice positions 0 j) = none := by
    intro j
    unfold azRhat
    rw [if_neg]
    rintro ⟨-, h4⟩
    have h0 : nDraws2 (dimWindowSlice positions 0 j) = 0 := by
      unfold nDraws2 dimWindowSlice
      cases positions with
      | nil => rfl
      | cons c rest => simp
    omega
  refine ⟨by simp [plot_rhat_trace], ?_, ?_⟩
  · intro row hrow
    simp only [plot_rhat_trace, List.mem_map] at hrow
    obtain ⟨j, hj, rfl⟩ := hrow
    simp
  · refine List.eq_replicate_iff.mpr ⟨by simp [plot_rhat_trace], ?_⟩
    intro row hrow
    simp only [plot_rhat_trace, List.mem_map] at hrow
    obtain ⟨j, hj, rfl⟩ := hrow
    refine List.eq_replicate_iff.mpr ⟨by simp, ?_⟩
    intro b hb
    simp only [List.mem_map] at hb
    obtain ⟨i, hi, rfl⟩ := hb
    rw [hg, Nat.mul_zero]
    exact hwin j

/-- C7 witness: the degenerate-trace theorem instantiated on a concrete
2-chain, 3-draw, 2-dimensional ensemble (3 < 7 draws). -/
theorem c7_degenerate_trace_witness :
    posDraws witnessPositions3 < n_step_group
    ∧ ((plot_rhat_trace (fun _ => (0 : ℝ)) witnessPositions3 2).length = 2
      ∧ (∀ row ∈ plot_rhat_trace (fun _ => (0 : ℝ)) witnessPositions3 2,
          row.length = n_step_group)
      ∧ plot_rhat_trace (fun _ => (0 : ℝ)) witnessPositions3 2
          = List.replicate 2 (List.replicate n_step_group none)) :=
  ⟨by decide, c7_degenerate_trace (fun _ => (0 : ℝ)) witnessPositions3 2 (by decide)⟩

/-- C8: the dual-moon log-density reads its input only through the first two
coordinates and the Euclidean norm: any two vectors of dimensionality at
least 2 agreeing on `x[0]`, `x[1]` and `‖x‖` receive the same log-density. -/
theorem c8_dual_moon_dependence (x y : List ℝ)
    (_hx : 2 ≤ x.length) (_hy : 2 ≤ y.length)
    (h0 : x.getD 0 0 = y.getD 0 0) (h1 : x.getD 1 0 = y.getD 1 0)
    (hn : normE x = normE y) :
    target_dual_moon x = target_dual_moon y := by
  unfold target_dual_moon
  rw [h0, h1, hn]

/-- C8 witness: `[0, 0, 3, 4]` and `[0, 0, 5, 0]` agree on the first two
coordinates and on the Euclidean norm (both 5), hence receive the same
dual-moon log-density. -/
theorem c8_dual_moon_witness :
    2 ≤ ([(0 : ℝ), 0, 3, 4] : List ℝ).length
    ∧ 2 ≤ ([(0 : ℝ), 0, 5, 0] : List ℝ).length
    ∧ ([(0 : ℝ), 0, 3, 4] : List ℝ).getD 0 0 = ([(0 : ℝ), 0, 5, 0] : List ℝ).getD 0 0
    ∧ ([(0 : ℝ), 0, 3, 4] : List ℝ).getD 1 0 = ([(0 : ℝ), 0, 5, 0] : List ℝ).getD 1 0
    ∧ normE [(0 : ℝ), 0, 3, 4] = normE [(0 : ℝ), 0, 5, 0]
    ∧ target_dual_moon [(0 : ℝ), 0, 3, 4] = target_dual_moon [(0 : ℝ), 0, 5, 0] := by
  have hn : normE [(0 : ℝ), 0, 3, 4] = normE [(0 : ℝ), 0, 5, 0] := by
    unfold normE sumSq
    norm_num
  exact ⟨by norm_num, by norm_num, rfl, rfl, hn,
    c8_dual_moon_dependence [0, 0, 3, 4] [0, 0, 5, 0] (by norm_num) (by norm_num) rfl rfl hn⟩

end MCMCExperiment
